import Mathlib

/-
Verification development for the RunReel video-generation orchestration
client.  The definitions below are a shallow embedding of the TypeScript
sources:

  * src/services/enhancedTavusService.ts  (submission payload, polling
    loop with backoff, orchestration of the durable video_generations
    record)
  * src/services/tavusService.ts          (legacy submission payload)
  * src/hooks/useEnhancedVideoGeneration.ts (UI session state, progress
    estimator, peak-usage flag)

Machine numbers are modelled as Nat / Int / Rat (the JS code uses
doubles; every property proved here is an equality or inequality that is
robust to the sub-ulp error of the float computation, and constants such
as 1.3, 1.5, 0.2, 0.8 are taken at their decimal value).  IO (fetch,
supabase, setTimeout, Date.now) is modelled by explicit oracle
parameters: the provider's reply to the k-th status request, the wall
time consumed by each network call, and the outcome of the submission
POST.  JS truthiness of strings ('' is falsy) and of `x || y` is
modelled explicitly.
-/

namespace RunReel

set_option maxRecDepth 100000

/-! ### JavaScript semantics helpers -/

/-- `v || d` for an optional string environment variable / field:
the fallback is taken both when the value is absent and when it is the
empty string (JS falsiness). -/
def jsOrString (v : Option String) (d : String) : String :=
  match v with
  | none => d
  | some s => if s = "" then d else s

/-- JS truthiness of an optional string: present and non-empty. -/
def strTruthy (v : Option String) : Bool :=
  match v with
  | none => false
  | some s => s ≠ ""

/-- `a || b` on optional strings (empty string is falsy). -/
def jsOrS (a b : Option String) : Option String :=
  if strTruthy a then a else b

/-- `Math.round` of JS for the nonnegative values that occur here:
round half up. -/
def jsRound (q : ℚ) : ℤ :=
  ⌊q + 1/2⌋

/-! ### Wire payloads (JSON.stringify of the submission bodies)

A serialized JSON object body is modelled as the ordered list of its
key/value pairs.  `JSON.stringify` keeps keys whose value is `null` and
drops nothing else that appears in the object literals below. -/

inductive JsonVal
  | str (s : String)
  | bool (b : Bool)
  | null
deriving DecidableEq

/-- Environment of the enhanced service (process.env values; `none`
means the variable is unset). -/
structure GenEnv where
  apiKey : Option String
  replicaId : Option String
deriving DecidableEq

/-- `video_name` built by initiateVideoGeneration:
`activity_${activity.id}_${Date.now()}`. -/
def videoName (activityId : String) (nowMs : ℕ) : String :=
  s!"activity_{activityId}_{nowMs}"

/-- Body of the enhanced submission POST
(src/services/enhancedTavusService.ts, initiateVideoGeneration):
`{ replica_id, script, video_name, fast: true }`.
`replica_id` is `process.env.EXPO_PUBLIC_TAVUS_REPLICA_ID || 'default-replica'`.
The customization object is not consulted here at all. -/
def enhancedSubmissionPayload (env : GenEnv) (script : String)
    (name : String) : List (String × JsonVal) :=
  [("replica_id", JsonVal.str (jsOrString env.replicaId "default-replica")),
   ("script", JsonVal.str script),
   ("video_name", JsonVal.str name),
   ("fast", JsonVal.bool true)]

/-- Body of the legacy submission POST
(src/services/tavusService.ts, generateVideo):
`{ replica_id, script, video_name, callback_url: null,
   ...(backgroundImageUrl && { background_url }) }`. -/
def legacySubmissionPayload (replicaId : String) (script : String)
    (nowMs : ℕ) (backgroundImageUrl : Option String) :
    List (String × JsonVal) :=
  [("replica_id",
      JsonVal.str (if replicaId = "" then "default-replica" else replicaId)),
   ("script", JsonVal.str script),
   ("video_name", JsonVal.str s!"run_achievement_{nowMs}"),
   ("callback_url", JsonVal.null)]
  ++ (match backgroundImageUrl with
      | some u => if u = "" then [] else [("background_url", JsonVal.str u)]
      | none => [])

/-- The constructor stores `process.env.EXPO_PUBLIC_TAVUS_API_KEY || ''`;
generateActivityVideo fails fast iff that stored key is falsy
(src/services/enhancedTavusService.ts lines 62-68 and 97-102).
Only the API key is inspected; the replica id is never checked. -/
def apiKeyMissing (env : GenEnv) : Bool :=
  jsOrString env.apiKey "" = ""

/-! ### Status poller (pollVideoCompletionEnhanced) -/

inductive TavusStatus
  | pending | queued | processing | completed | failed | error
deriving DecidableEq

def TavusStatus.text : TavusStatus → String
  | .pending => "pending"
  | .queued => "queued"
  | .processing => "processing"
  | .completed => "completed"
  | .failed => "failed"
  | .error => "error"

/-- JSON body of `GET /videos/{id}` as the provider returns it. -/
structure TavusRawResponse where
  video_id : String
  status : TavusStatus
  download_url : Option String
  hosted_url : Option String
  thumbnail_url : Option String
deriving DecidableEq

/-- The TavusResponse value produced by getVideoStatus
(src/services/enhancedTavusService.ts lines 401-410): note that
`video_url` is populated from the raw `download_url`. -/
structure TavusResponse where
  video_id : String
  status : TavusStatus
  video_url : Option String
  preview_url : Option String
  hosted_url : Option String
  download_url : Option String
  thumbnail_url : Option String
deriving DecidableEq

/-- getVideoStatus, mapping of the raw provider body (the api-key guard
and HTTP failure of the method are modelled by the oracle returning
`Except.error`). -/
def getVideoStatus (raw : TavusRawResponse) : TavusResponse :=
  { video_id := raw.video_id
    status := raw.status
    video_url := raw.download_url
    preview_url := raw.hosted_url
    hosted_url := raw.hosted_url
    download_url := raw.download_url
    thumbnail_url := raw.thumbnail_url }

/-- Result type of the enhanced polling / generation
(interface VideoGenerationResult).  Absent (undefined) fields are
`none`; `total_time` is in rounded seconds; `queue_time` keeps the
source's number quirk (milliseconds while still in the queue phase,
rounded seconds otherwise). -/
structure VideoGenerationResult where
  success : Bool
  videoUrl : Option String := none
  thumbnailUrl : Option String := none
  videoId : Option String := none
  error : Option String := none
  attempts_made : Option ℕ := none
  total_time : Option ℤ := none
  queue_time : Option ℚ := none
  suggestion : Option String := none
deriving DecidableEq

structure PollingConfig where
  maxAttempts : ℕ
  initialInterval : ℚ
  maxInterval : ℚ
  backoffMultiplier : ℚ
  totalTimeout : ℚ
  queueTimeout : ℚ
  peakUsageThreshold : ℕ
deriving DecidableEq

/-- POLLING_CONFIG of EnhancedTavusService (lines 52-60). -/
def POLLING_CONFIG : PollingConfig :=
  { maxAttempts := 60
    initialInterval := 5000
    maxInterval := 20000
    backoffMultiplier := 13/10
    totalTimeout := 600000
    queueTimeout := 180000
    peakUsageThreshold := 180 }

/-- Progressive backoff of the base interval (lines 352-355):
`currentInterval = Math.min(currentInterval * backoffMultiplier, maxInterval)`. -/
def nextInterval (c : ℚ) : ℚ :=
  min (c * POLLING_CONFIG.backoffMultiplier) POLLING_CONFIG.maxInterval

/-- Interval actually slept before the next attempt (lines 344-346):
queue phase widens the base interval by 1.5, capped independently at
30000 ms; the processing phase sleeps the base interval. -/
def usedInterval (queuePhase : Bool) (c : ℚ) : ℚ :=
  if queuePhase then min (c * (3/2)) 30000 else c

/-- Mutable state of the polling loop.  `now` is `Date.now() - startTime`
at the top of the current iteration; `sleeps` records the intervals
actually slept (instrumentation only, read by no branch). -/
structure PollState where
  attempts : ℕ
  currentInterval : ℚ
  queuePhase : Bool
  now : ℚ
  sleeps : List ℚ
deriving DecidableEq

def initialPollState : PollState :=
  { attempts := 0
    currentInterval := POLLING_CONFIG.initialInterval
    queuePhase := true
    now := 0
    sleeps := [] }

/-- Failure returned by the top-of-iteration total-timeout check
(lines 276-286): it carries the rounded elapsed seconds (also inside
the message), the attempt count and a retry suggestion. -/
def timeoutResult (videoId : String) (now : ℚ) (attempts : ℕ) :
    VideoGenerationResult :=
  let secs := jsRound (now / 1000)
  { success := false
    error := some s!"Video generation timeout after {secs} seconds. This can happen during peak usage periods."
    videoId := some videoId
    attempts_made := some attempts
    total_time := some secs
    suggestion := some "Check your Tavus dashboard or try again during off-peak hours (early morning/late evening)" }

/-- One iteration of the while-loop of pollVideoCompletionEnhanced
(lines 272-370).  `resp k` is the outcome of the (k+1)-th
getVideoStatus call (`Except.error` = the call threw); `netTime k` is
the wall time it consumed.  `Sum.inl` = the iteration returned,
`Sum.inr` = the loop continues with the new state. -/
def pollStep (resp : ℕ → Except String TavusRawResponse)
    (netTime : ℕ → ℚ) (videoId : String) (s : PollState) :
    VideoGenerationResult ⊕ PollState :=
  -- top-of-iteration total-timeout check (lines 276-286)
  if POLLING_CONFIG.totalTimeout < s.now then
    Sum.inl (timeoutResult videoId s.now s.attempts)
  else
    -- attempts++ (line 289)
    let a := s.attempts + 1
    match resp s.attempts with
    | Except.error msg =>
      -- catch branch (lines 358-370): give up at the attempt ceiling,
      -- otherwise sleep the (un-widened, un-advanced) base interval
      if POLLING_CONFIG.maxAttempts ≤ a then
        Sum.inl
          { success := false
            error := some s!"Polling failed after {a} attempts: {msg}"
            videoId := some videoId
            attempts_made := some a }
      else
        Sum.inr
          { attempts := a
            currentInterval := s.currentInterval
            queuePhase := s.queuePhase
            now := s.now + netTime s.attempts + s.currentInterval
            sleeps := s.sleeps ++ [s.currentInterval] }
    | Except.ok raw =>
      let st := getVideoStatus raw
      -- phase transition detection (lines 298-313): only a
      -- `processing` status ends the queue phase
      let queuePhase :=
        if st.status = TavusStatus.processing then false else s.queuePhase
      -- completion handling (lines 316-330): requires a truthy URL,
      -- otherwise falls through and the loop continues
      let videoUrl := jsOrS st.hosted_url (jsOrS st.download_url st.video_url)
      if st.status = TavusStatus.completed ∧ strTruthy videoUrl then
        Sum.inl
          { success := true
            videoId := some videoId
            videoUrl := videoUrl
            thumbnailUrl := st.thumbnail_url
            attempts_made := some a
            total_time := some (jsRound (s.now / 1000))
            queue_time := some (if queuePhase then s.now
              else (jsRound ((s.now + netTime s.attempts) / 1000) : ℚ)) }
      else if st.status = TavusStatus.failed ∨ st.status = TavusStatus.error then
        -- provider-reported failure (lines 332-341)
        let stText := st.status.text
        Sum.inl
          { success := false
            error := some s!"Video generation failed with status: {stText}"
            videoId := some videoId
            attempts_made := some a
            total_time := some (jsRound (s.now / 1000)) }
      else
        -- adaptive interval and backoff before the next attempt
        -- (lines 343-356); no sleep after the final allowed attempt
        let pollInterval := usedInterval queuePhase s.currentInterval
        if a < POLLING_CONFIG.maxAttempts then
          Sum.inr
            { attempts := a
              currentInterval := nextInterval s.currentInterval
              queuePhase := queuePhase
              now := s.now + netTime s.attempts + pollInterval
              sleeps := s.sleeps ++ [pollInterval] }
        else
          Sum.inr
            { attempts := a
              currentInterval := s.currentInterval
              queuePhase := queuePhase
              now := s.now + netTime s.attempts
              sleeps := s.sleeps }

/-- Result returned when the while-loop guard `attempts < maxAttempts`
fails (lines 373-380).  It carries the attempt count and a suggestion
but no total_time. -/
def maxAttemptsResult (videoId : String) (attempts : ℕ) :
    VideoGenerationResult :=
  let maxA := POLLING_CONFIG.maxAttempts
  { success := false
    error := some s!"Video generation timeout - exceeded maximum polling attempts ({maxA}). Video may still be processing."
    videoId := some videoId
    attempts_made := some attempts
    suggestion := some "Video may still be processing. Check your Tavus dashboard manually or try again in a few minutes." }

/-- The while-loop.  Fuel only bounds the recursion; each continuing
step increments `attempts`, so fuel `maxAttempts + 1` is never
exhausted before the guard fails (the fuel-0 fallback coincides with
the guard-false result). -/
def pollGo (resp : ℕ → Except String TavusRawResponse)
    (netTime : ℕ → ℚ) (videoId : String) :
    ℕ → PollState → VideoGenerationResult × List ℚ
  | 0, s => (maxAttemptsResult videoId s.attempts, s.sleeps)
  | fuel + 1, s =>
    if s.attempts < POLLING_CONFIG.maxAttempts then
      match pollStep resp netTime videoId s with
      | Sum.inl r => (r, s.sleeps)
      | Sum.inr s2 => pollGo resp netTime videoId fuel s2
    else
      (maxAttemptsResult videoId s.attempts, s.sleeps)

/-- pollVideoCompletionEnhanced (lines 263-381), instrumented to also
return the list of intervals slept. -/
def pollVideoCompletionEnhanced (resp : ℕ → Except String TavusRawResponse)
    (netTime : ℕ → ℚ) (videoId : String) :
    VideoGenerationResult × List ℚ :=
  pollGo resp netTime videoId (POLLING_CONFIG.maxAttempts + 1) initialPollState

/-! ### Job record store and the orchestrator (generateActivityVideo)

The `video_generations` table is modelled as a list of rows; the four
supabase statements the orchestrator issues are modelled as explicit
store operations, so a run yields both its returned result and the
ordered list of writes it performed. -/

inductive RecStatus
  | pending | processing | completed | failed
deriving DecidableEq

structure JobRecord where
  id : ℕ
  user_id : String
  run_id : String
  status : RecStatus
  script_content : String
  tavus_job_id : Option String
  video_url : Option String
  error_message : Option String
deriving DecidableEq

inductive StoreOp
  | insert (r : JobRecord)
  | markProcessing (id : ℕ) (jobId : String)
  | markCompleted (id : ℕ) (url : Option String)
  | failPendingProcessing (user : String) (msg : String)
deriving DecidableEq

/-- Does a row match the catch-path update filter
`.eq('user_id', user.id).in('status', ['pending', 'processing'])`? -/
def matchesFailFilter (u : String) (r : JobRecord) : Bool :=
  r.user_id = u ∧ (r.status = RecStatus.pending ∨ r.status = RecStatus.processing)

def applyOp (store : List JobRecord) : StoreOp → List JobRecord
  | .insert r => store ++ [r]
  | .markProcessing i jobId =>
    store.map fun r =>
      if r.id = i then
        { r with status := RecStatus.processing, tavus_job_id := some jobId }
      else r
  | .markCompleted i url =>
    store.map fun r =>
      if r.id = i then { r with status := RecStatus.completed, video_url := url }
      else r
  | .failPendingProcessing u msg =>
    store.map fun r =>
      if matchesFailFilter u r then
        { r with status := RecStatus.failed, error_message := some msg }
      else r

def applyOps (store : List JobRecord) (ops : List StoreOp) : List JobRecord :=
  ops.foldl applyOp store

/-- Status values an operation writes onto the row `rid`, given the
store contents at the moment it executes. -/
def opWrites (store : List JobRecord) (rid : ℕ) : StoreOp → List RecStatus
  | .insert r => if r.id = rid then [r.status] else []
  | .markProcessing i _ =>
    if i = rid ∧ store.any (fun r => r.id = rid) then [RecStatus.processing]
    else []
  | .markCompleted i _ =>
    if i = rid ∧ store.any (fun r => r.id = rid) then [RecStatus.completed]
    else []
  | .failPendingProcessing u _ =>
    if store.any (fun r => r.id = rid ∧ matchesFailFilter u r) then
      [RecStatus.failed]
    else []

/-- The sequence of status values a reader of the store observes being
written to row `rid` over a list of operations. -/
def statusTrace (store : List JobRecord) (rid : ℕ) :
    List StoreOp → List RecStatus
  | [] => []
  | op :: ops => opWrites store rid op ++ statusTrace (applyOp store op) rid ops

/-- Outcome of the `fetch` of the submission POST. -/
inductive SubmitHttp
  | netError (msg : String)
  | httpError (status : ℕ) (statusText : String) (body : String)
  | ok (video_id : String)
deriving DecidableEq

/-- initiateVideoGeneration (lines 209-261): builds the payload and
performs the POST; a non-2xx response or thrown fetch error becomes a
`{success:false, error}` outcome, success carries the provider job id. -/
def initiateVideoGeneration (env : GenEnv) (activityId : String)
    (script : String) (nowMs : ℕ) (submit : SubmitHttp) :
    List (String × JsonVal) × Except String String :=
  (enhancedSubmissionPayload env script (videoName activityId nowMs),
   match submit with
   | .netError msg => Except.error msg
   | .httpError status statusText body =>
     Except.error s!"Tavus API error: {status} {statusText} - {body}"
   | .ok vid => Except.ok vid)

/-- Customization options accepted (and ignored) by the orchestrator
(interface VideoGenerationRequest.customization). -/
structure Customization where
  voiceType : Option String := none
  backgroundStyle : Option String := none
  musicStyle : Option String := none
  includeStats : Option Bool := none
  includeBranding : Option Bool := none
deriving DecidableEq

/-- A run of the orchestrator: the value returned to the caller, the
store writes it performed in order, and the id of the record the run
created (if it got that far). -/
structure GenRun where
  result : VideoGenerationResult
  ops : List StoreOp
  createdId : Option ℕ
deriving DecidableEq

def mkFailResult (e : String) : VideoGenerationResult :=
  { success := false, error := some e }

/-- generateActivityVideo of EnhancedTavusService (lines 92-207).
Oracles: `auth` is the user supabase.auth.getUser returns (in one run
the same value at line 108 and in the catch at line 187); `script`
stands for the randomly selected generateActivityScript output;
`newId` is the id the insert assigns; `insertErr` is the insert error
if any; `submit` the submission POST outcome; `resp`/`netTime` drive
the polling loop.  The customization argument is accepted and, as in
the source, never used. -/
def generateActivityVideo (env : GenEnv) (auth : Option String)
    (activityId : String) (script : String)
    (customization : Customization) (newId : ℕ) (nowMs : ℕ)
    (insertErr : Option String) (submit : SubmitHttp)
    (resp : ℕ → Except String TavusRawResponse) (netTime : ℕ → ℚ) :
    GenRun :=
  -- api-key fail-fast (lines 97-102): before auth, record, network
  if apiKeyMissing env then
    { result := mkFailResult "Tavus API key is missing. Please set EXPO_PUBLIC_TAVUS_API_KEY in your environment variables."
      ops := [], createdId := none }
  else
    match auth with
    | none =>
      -- line 110 throws; the catch obtains no user either, so no update
      { result := mkFailResult "User not authenticated"
        ops := [], createdId := none }
    | some uid =>
      match insertErr with
      | some m =>
        -- line 133 throws; no row was created, but the catch still
        -- fails every pending/processing row of this user
        { result := mkFailResult s!"Failed to create video generation record: {m}"
          ops := [StoreOp.failPendingProcessing uid
            s!"Failed to create video generation record: {m}"]
          createdId := none }
      | none =>
        let rec0 : JobRecord :=
          { id := newId, user_id := uid, run_id := activityId
            status := RecStatus.pending, script_content := script
            tavus_job_id := none, video_url := none, error_message := none }
        match (initiateVideoGeneration env activityId script nowMs submit).2 with
        | Except.error e =>
          -- line 141 throws initResult.error; catch path (lines 182-206)
          { result := mkFailResult e
            ops := [StoreOp.insert rec0, StoreOp.failPendingProcessing uid e]
            createdId := some newId }
        | Except.ok vid =>
          let pr := (pollVideoCompletionEnhanced resp netTime vid).1
          if pr.success && strTruthy pr.videoUrl then
            -- lines 158-177
            { result :=
                { success := true
                  videoUrl := pr.videoUrl
                  thumbnailUrl := pr.thumbnailUrl
                  videoId := some (toString newId)
                  attempts_made := pr.attempts_made
                  total_time := pr.total_time
                  queue_time := pr.queue_time }
              ops := [StoreOp.insert rec0,
                StoreOp.markProcessing newId vid,
                StoreOp.markCompleted newId pr.videoUrl]
              createdId := some newId }
          else
            -- line 179 throws; catch path
            let msg := jsOrString pr.error
              "Video generation failed - no video URL returned"
            { result := mkFailResult msg
              ops := [StoreOp.insert rec0,
                StoreOp.markProcessing newId vid,
                StoreOp.failPendingProcessing uid msg]
              createdId := some newId }

/-! ### UI session hook (useEnhancedVideoGeneration)

The hook state, the 1 Hz progress tick, the terminal transitions and
the progress estimator, from src/hooks/useEnhancedVideoGeneration.ts. -/

inductive HookStep
  | initializing | processing | finalizing | completed | failed
deriving DecidableEq

structure HookState where
  isGenerating : Bool
  progress : String
  error : Option String
  videoUrl : Option String
  thumbnailUrl : Option String
  currentStep : HookStep
  elapsedTime : ℕ
  estimatedTimeRemaining : ℕ
  isPeakUsage : Bool
deriving DecidableEq

/-- getProgressMessage (lines 75-99); the final else covers the
`failed` step. -/
def getProgressMessage (elapsedSeconds : ℕ) (step : HookStep)
    (isPeakUsage : Bool) : String :=
  match step with
  | .initializing => "Initializing video generation..."
  | .processing =>
    if elapsedSeconds < 30 then "Starting video generation..."
    else if elapsedSeconds < 90 then "Added to processing queue..."
    else if elapsedSeconds < 120 then
      "Waiting in queue - this is normal during peak hours..."
    else if elapsedSeconds < 240 then
      (if isPeakUsage then "Still queued - experiencing high demand..."
       else "Processing your video - AI generation in progress...")
    else if elapsedSeconds < 360 then
      "Processing your video - AI generation in progress..."
    else "Almost complete - finalizing your achievement video..."
  | .finalizing => "Finalizing your video..."
  | .completed => "Video generation completed!"
  | .failed => "Processing..."

/-- updateProgress (lines 57-73), the once-per-second tick: recomputes
elapsed time, the remaining estimate (`Math.max(0, ...)` is Nat
subtraction) and sets `isPeakUsage = elapsed > 120`. -/
def updateProgress (nowMs startMs : ℕ) (s : HookState) : HookState :=
  if s.isGenerating = false then s
  else
    let elapsed := (nowMs - startMs) / 1000
    let isPeakUsage := decide (120 < elapsed)
    { s with
      elapsedTime := elapsed
      estimatedTimeRemaining := s.estimatedTimeRemaining - elapsed
      progress := getProgressMessage elapsed s.currentStep isPeakUsage
      isPeakUsage := isPeakUsage }

/-- getConfigStatus of the service (lines 458-470). -/
def getConfigStatus (env : GenEnv) : Bool × String :=
  if jsOrString env.apiKey "" = "" then
    (false, "Tavus API key is missing. Please set EXPO_PUBLIC_TAVUS_API_KEY in your .env file.")
  else
    (true, "Tavus API is properly configured.")

/-- How far the hook's generateActivityVideo gets before any await
(lines 120-157): throw on missing user, throw (after writing a failed
state) on missing configuration, otherwise re-initialize the session
state and continue to submission. -/
inductive EntryOutcome
  | throwAuth
  | throwConfig (newState : HookState) (msg : String)
  | proceed (newState : HookState)
deriving DecidableEq

def generateEntry (user : Option String) (env : GenEnv) (s : HookState) :
    EntryOutcome :=
  match user with
  | none => EntryOutcome.throwAuth
  | some _ =>
    let cs := getConfigStatus env
    if cs.1 = false then
      EntryOutcome.throwConfig
        { isGenerating := false, progress := "", error := some cs.2
          videoUrl := none, thumbnailUrl := none
          currentStep := HookStep.failed, elapsedTime := 0
          estimatedTimeRemaining := 480, isPeakUsage := false }
        cs.2
    else
      EntryOutcome.proceed
        { s with
          isGenerating := true
          progress := "Initializing video generation..."
          error := none
          videoUrl := none
          thumbnailUrl := none
          currentStep := HookStep.initializing
          elapsedTime := 0
          estimatedTimeRemaining := 480
          isPeakUsage := false }

/-- Substring test (`String.includes` of JS). -/
def charsPrefix : List Char → List Char → Bool
  | [], _ => true
  | _ :: _, [] => false
  | c :: cs, d :: ds => c = d && charsPrefix cs ds

def charsInfix (pat : List Char) : List Char → Bool
  | [] => charsPrefix pat []
  | l@(_ :: t) => charsPrefix pat l || charsInfix pat t

def strIncludes (s pat : String) : Bool :=
  charsInfix pat.toList s.toList

/-- getEnhancedErrorMessage (lines 227-239). -/
def getEnhancedErrorMessage (msg : String) : String :=
  if strIncludes msg "timeout" || strIncludes msg "peak usage" then
    "Video generation is taking longer than expected due to high demand. This is normal during peak usage periods. Try again during off-peak hours (early morning/late evening) for faster processing."
  else if strIncludes msg "API key" then
    "Video service configuration issue. Please contact support."
  else if strIncludes msg "replica" then
    "Video avatar not ready. Please try again in a few minutes."
  else msg

/-- The catch handler of the hook's generateActivityVideo
(lines 210-221): every field of the session state is overwritten; in
particular `isPeakUsage` is set to `false` unconditionally. -/
def failTransition (s : HookState) (msg : String) : HookState :=
  { s with
    isGenerating := false
    progress := ""
    error := some (getEnhancedErrorMessage msg)
    videoUrl := none
    thumbnailUrl := none
    currentStep := HookStep.failed
    elapsedTime := 0
    estimatedTimeRemaining := 480
    isPeakUsage := false }

/-- The success handler (lines 178-196, net effect of both setState
calls): `isPeakUsage` becomes `result.total_time ? total_time > 120 :
false` (a falsy 0 also yields false, which `120 < 0` matches). -/
def completeTransition (s : HookState) (r : VideoGenerationResult) :
    HookState :=
  { s with
    isGenerating := false
    progress := "Video generation completed!"
    error := none
    videoUrl := r.videoUrl
    thumbnailUrl := if strTruthy r.thumbnailUrl then r.thumbnailUrl else none
    currentStep := HookStep.completed
    elapsedTime := match r.total_time with | some t => t.toNat | none => 0
    estimatedTimeRemaining := 0
    isPeakUsage := match r.total_time with | some t => decide (120 < t) | none => false }

/-- getProgressPercentage (lines 281-299), a pure function of the three
state fields it reads.  0.2 and 0.8 are the decimal values of the
source literals. -/
def getProgressPercentage (currentStep : HookStep) (elapsedTime : ℕ)
    (isPeakUsage : Bool) : ℚ :=
  if currentStep = HookStep.completed then 100
  else if currentStep = HookStep.failed then 0
  else
    let maxEstimatedTime : ℚ := if isPeakUsage then 480 else 240
    let timeProgress : ℚ :=
      min ((elapsedTime : ℚ) / maxEstimatedTime * 100) 95
    match currentStep with
    | HookStep.initializing => max 10 (timeProgress * (2/10))
    | HookStep.processing => max 20 (timeProgress * (8/10))
    | HookStep.finalizing => max 85 timeProgress
    | _ => timeProgress

/-- The percentage an in-flight session shows at elapsed time `t`:
the estimator evaluated on the state updateProgress produces, whose
peak flag is `120 < t`. -/
def sessionPercentage (step : HookStep) (t : ℕ) : ℚ :=
  getProgressPercentage step t (decide (120 < t))

/-! ### Concrete scenario inputs (used to evaluate the model) -/

/-- Network calls that take no measurable time. -/
def netZero : ℕ → ℚ := fun _ => 0

def envOk : GenEnv := { apiKey := some "k", replicaId := some "r" }

def rawNoUrl : TavusRawResponse :=
  { video_id := "v1", status := TavusStatus.completed
    download_url := none, hosted_url := none, thumbnail_url := none }

def rawWithUrl : TavusRawResponse :=
  { video_id := "v1", status := TavusStatus.completed
    download_url := none, hosted_url := some "https://x/v.mp4"
    thumbnail_url := none }

def rawQueued : TavusRawResponse :=
  { video_id := "v1", status := TavusStatus.queued
    download_url := none, hosted_url := none, thumbnail_url := none }

def rawProcessing : TavusRawResponse :=
  { video_id := "v1", status := TavusStatus.processing
    download_url := none, hosted_url := none, thumbnail_url := none }

/-- Provider run: first poll says completed with no URL at all, second
poll says completed with a hosted URL. -/
def respC1 : ℕ → Except String TavusRawResponse := fun k =>
  if k = 0 then Except.ok rawNoUrl else Except.ok rawWithUrl

/-- Provider run: 59 polls throw a network error, the 60th reports
`processing`. -/
def respC3 : ℕ → Except String TavusRawResponse := fun k =>
  if k < 59 then Except.error "network error" else Except.ok rawProcessing

/-- Provider run: queued for five polls, then processing, then
completed with a URL. -/
def respC8 : ℕ → Except String TavusRawResponse := fun k =>
  if k < 5 then Except.ok rawQueued
  else if k = 5 then Except.ok rawProcessing
  else Except.ok rawWithUrl

/-- An initial store holding one pending row of owner u1 for a
different subject than the one the failing run below is about. -/
def storeC4 : List JobRecord :=
  [{ id := 99, user_id := "u1", run_id := "other-run"
     status := RecStatus.pending, script_content := "old"
     tavus_job_id := none, video_url := none, error_message := none }]

/-- A run whose submission POST is rejected with HTTP 500. -/
def runC4 : GenRun :=
  generateActivityVideo envOk (some "u1") "run-1" "script" {} 7 1000 none
    (SubmitHttp.httpError 500 "Internal Server Error" "boom")
    (fun _ => Except.ok rawQueued) netZero

/-- The row of `storeC4` after the failing run `runC4` updated it. -/
def recC4final : JobRecord :=
  { id := 99, user_id := "u1", run_id := "other-run"
    status := RecStatus.failed, script_content := "old"
    tavus_job_id := none, video_url := none
    error_message := some "Tavus API error: 500 Internal Server Error - boom" }

/-- A run whose submission fetch throws. -/
def runC5 : GenRun :=
  generateActivityVideo envOk (some "u2") "run-2" "script2" {} 8 0 none
    (SubmitHttp.netError "connection reset")
    (fun _ => Except.ok rawQueued) netZero

/-- A hook state mid-generation (first call still in flight). -/
def busyState : HookState :=
  { isGenerating := true
    progress := "Processing your video - AI generation in progress..."
    error := none, videoUrl := none, thumbnailUrl := none
    currentStep := HookStep.processing, elapsedTime := 45
    estimatedTimeRemaining := 435, isPeakUsage := false }

/-! ### Theorems -/

/-- C1 (counterexample): the claim says that any poll reporting
`completed` without a usable URL makes the operation fail with
MissingResultError, without further polling.  In the run `respC1` the
first poll is exactly such a poll, yet the poller carries on and
returns success on the second poll: the result is successful with two
attempts made, so the claim is false. -/
theorem C1_counterexample :
    (pollVideoCompletionEnhanced respC1 netZero "v1").1.success = true
    ∧ (pollVideoCompletionEnhanced respC1 netZero "v1").1.attempts_made = some 2 := by
  with_unfolding_all exact ⟨rfl, rfl⟩

/-- C3 (counterexample): the claim says the attempt-ceiling failure
carries the elapsed/attempt data like the timeout failure does.  In
the run `respC3` the ceiling of 60 attempts is reached (59 swallowed
poll errors at the un-advanced 5 s interval keep elapsed time at 295 s,
under the 600 s ceiling); the returned failure carries attempts_made
but its total_time is absent. -/
theorem C3_counterexample :
    (pollVideoCompletionEnhanced respC3 netZero "v1").1.success = false
    ∧ (pollVideoCompletionEnhanced respC3 netZero "v1").1.attempts_made = some 60
    ∧ (pollVideoCompletionEnhanced respC3 netZero "v1").1.total_time = none := by
  with_unfolding_all exact ⟨rfl, rfl, rfl⟩

/-- C4 (counterexample): the claim says the on-failure update targets
the most recent pending/processing record for this owner AND subject.
In the run `runC4` (subject "run-1", submission rejected with HTTP
500), the pre-existing pending row of the same owner for the DIFFERENT
subject "other-run" is also flipped to failed, so the update is not
scoped to the subject. -/
theorem C4_counterexample :
    runC4.result.success = false
    ∧ storeC4.head? = some
        { id := 99, user_id := "u1", run_id := "other-run"
          status := RecStatus.pending, script_content := "old"
          tavus_job_id := none, video_url := none, error_message := none }
    ∧ (applyOps storeC4 runC4.ops).head? = some recC4final := by
  decide

/-- C5 (counterexample): the claim says a reader never observes the
record move from pending directly to a terminal status.  In the run
`runC5` the submission fetch throws after the record is created, and
the status writes on the created row (id 8) are exactly
pending → failed, skipping processing. -/
theorem C5_counterexample :
    runC5.createdId = some 8
    ∧ statusTrace [] 8 runC5.ops = [RecStatus.pending, RecStatus.failed] := by
  decide

/-- C6 (counterexample): the claim says a second generate() while the
session is still Processing fails immediately with
ConcurrentGenerationError.  The entry code has no such guard: with an
authenticated user and a configured service, a call made in the busy
state `busyState` (isGenerating = true, currentStep = processing) does
not throw — it proceeds, re-initializing the session state and going
on to submission. -/
theorem C6_counterexample :
    busyState.isGenerating = true
    ∧ generateEntry (some "u1") envOk busyState =
        EntryOutcome.proceed
          { isGenerating := true
            progress := "Initializing video generation..."
            error := none, videoUrl := none, thumbnailUrl := none
            currentStep := HookStep.initializing, elapsedTime := 0
            estimatedTimeRemaining := 480, isPeakUsage := false } := by
  decide

/-- C7 (counterexample): the claim says the percentage never regresses
as elapsed time grows with constant phase.  At constant phase
processing, moving from 120 s to 121 s elapsed flips the peak-usage
flag (elapsed > 120), the estimated total jumps from 240 s to 480 s,
and the percentage drops from 40 to 121/6 (≈ 20.17). -/
theorem C7_counterexample :
    sessionPercentage HookStep.processing 120 = 40
    ∧ sessionPercentage HookStep.processing 121 <
        sessionPercentage HookStep.processing 120 := by
  exact ⟨by with_unfolding_all rfl, by with_unfolding_all exact of_decide_eq_true rfl⟩

/-- C8 (counterexample): the claim says successive poll intervals never
exceed the configured maximum interval (20000 ms) and are
non-decreasing.  In the run `respC8` (queued for five polls, then
processing), the fifth sleep is 21420.75 ms > 20000 ms, and the sixth
sleep (first processing-phase sleep) is 18564.65 ms, a decrease. -/
theorem C8_counterexample :
    (pollVideoCompletionEnhanced respC8 netZero "v1").2.get? 4 =
        some (85683/4 : ℚ)
    ∧ (pollVideoCompletionEnhanced respC8 netZero "v1").2.get? 5 =
        some (371293/20 : ℚ)
    ∧ POLLING_CONFIG.maxInterval < (85683/4 : ℚ)
    ∧ (371293/20 : ℚ) < (85683/4 : ℚ) := by
  refine ⟨by with_unfolding_all rfl, by with_unfolding_all rfl, ?_, ?_⟩
  · with_unfolding_all exact of_decide_eq_true rfl
  · with_unfolding_all exact of_decide_eq_true rfl

/-- C9 (counterexample): the claim says that once isPeakLoad is true it
never flips back to false for the rest of the session, including at and
after the terminal transition.  After a tick at 130 s elapsed the flag
is true, yet the failure transition of the very same session resets it
to false. -/
theorem C9_counterexample :
    (updateProgress 130000 0 busyState).isPeakUsage = true
    ∧ (failTransition (updateProgress 130000 0 busyState) "boom").isPeakUsage
        = false := by
  decide

/-- C2 (counterexample): the claim says the serialized submission body
contains only the keys replica_id/script/video_name/fast and that no
key is ever sent with a null value.  The legacy submission POST
(tavusService.generateVideo, also cited by the claim) always serializes
a fifth key callback_url whose value is null. -/
theorem C2_counterexample :
    ((legacySubmissionPayload "r1" "great run" 1000 none).map Prod.fst =
      ["replica_id", "script", "video_name", "callback_url"])
    ∧ ("callback_url", JsonVal.null) ∈
        legacySubmissionPayload "r1" "great run" 1000 none := by
  decide

/-- C10: if the API key is configured but the replica environment
variable is unset, submission does not fail with a configuration
error: the payload's replica_id silently falls back to the literal
"default-replica", and the pre-call configuration check inspects only
the API key. -/
theorem C10_default_replica_fallback :
    (∀ (env : GenEnv) (script name : String), env.replicaId = none →
      (enhancedSubmissionPayload env script name).lookup "replica_id" =
        some (JsonVal.str "default-replica"))
    ∧ (∀ env env2 : GenEnv, env.apiKey = env2.apiKey →
        apiKeyMissing env = apiKeyMissing env2)
    ∧ (∀ k : String, k ≠ "" →
        apiKeyMissing { apiKey := some k, replicaId := none } = false) := by
  refine ⟨?_, ?_, ?_⟩
  · intro env script name h
    simp [enhancedSubmissionPayload, jsOrString, h, List.lookup]
  · intro env env2 h
    simp [apiKeyMissing, h]
  · intro k h
    simp [apiKeyMissing, jsOrString, h]

/-- C10 witness: concrete instance with the key set and the replica
variable unset. -/
theorem C10_default_replica_fallback_witness :
    (enhancedSubmissionPayload { apiKey := some "key1", replicaId := none }
        "s" "n").lookup "replica_id" = some (JsonVal.str "default-replica")
    ∧ apiKeyMissing { apiKey := some "key1", replicaId := none } = false :=
  ⟨C10_default_replica_fallback.1
      { apiKey := some "key1", replicaId := none } "s" "n" rfl,
   C10_default_replica_fallback.2.2 "key1" (by decide)⟩

/-- C2 (amended): the enhanced submission path actually used by
generate() serializes exactly the keys replica_id, script, video_name,
fast, never with a null value, and the customization object has no
influence on the run at all; the original claim fails only for the
legacy tavusService.generateVideo POST, which adds callback_url: null
(see the counterexample). -/
theorem C2_amended_enhanced_payload_hygiene :
    (∀ (env : GenEnv) (script name : String),
      (enhancedSubmissionPayload env script name).map Prod.fst =
        ["replica_id", "script", "video_name", "fast"])
    ∧ (∀ (env : GenEnv) (script name : String)
        (kv : String × JsonVal), kv ∈ enhancedSubmissionPayload env script name →
        kv.2 ≠ JsonVal.null)
    ∧ (∀ env auth activityId script c1 c2 newId nowMs insertErr submit resp
        netTime,
        generateActivityVideo env auth activityId script c1 newId nowMs
          insertErr submit resp netTime =
        generateActivityVideo env auth activityId script c2 newId nowMs
          insertErr submit resp netTime) := by
  refine ⟨fun env script name => rfl, ?_, fun _ _ _ _ _ _ _ _ _ _ _ _ => rfl⟩
  intro env script name kv hkv
  simp [enhancedSubmissionPayload] at hkv
  rcases hkv with h | h | h | h <;> subst h <;> simp

/-- C2 witness: the concrete enhanced payload for `envOk`. -/
theorem C2_amended_enhanced_payload_hygiene_witness :
    ((enhancedSubmissionPayload envOk "s" "n").map Prod.fst =
      ["replica_id", "script", "video_name", "fast"])
    ∧ (("fast", JsonVal.bool true) : String × JsonVal).2 ≠ JsonVal.null :=
  ⟨C2_amended_enhanced_payload_hygiene.1 envOk "s" "n",
   C2_amended_enhanced_payload_hygiene.2.1 envOk "s" "n"
     ("fast", JsonVal.bool true) (by decide)⟩

/-- C6 (amended): there is no concurrency guard.  Whenever the caller
is authenticated and the service configured, generate() proceeds —
for every prior session state, including one still generating — by
re-initializing the shared session state and continuing to submission;
no ConcurrentGenerationError is ever raised. -/
theorem C6_amended_no_concurrency_guard :
    ∀ (u : String) (env : GenEnv) (s : HookState),
      (getConfigStatus env).1 = true →
      generateEntry (some u) env s =
        EntryOutcome.proceed
          { s with
            isGenerating := true
            progress := "Initializing video generation..."
            error := none
            videoUrl := none
            thumbnailUrl := none
            currentStep := HookStep.initializing
            elapsedTime := 0
            estimatedTimeRemaining := 480
            isPeakUsage := false } := by
  intro u env s h
  simp only [generateEntry, h]
  simp

/-- C6 witness: the in-flight state `busyState` is not rejected. -/
theorem C6_amended_no_concurrency_guard_witness :
    (getConfigStatus envOk).1 = true
    ∧ generateEntry (some "u1") envOk busyState =
        EntryOutcome.proceed
          { busyState with
            isGenerating := true
            progress := "Initializing video generation..."
            error := none
            videoUrl := none
            thumbnailUrl := none
            currentStep := HookStep.initializing
            elapsedTime := 0
            estimatedTimeRemaining := 480
            isPeakUsage := false } :=
  ⟨by decide, C6_amended_no_concurrency_guard "u1" envOk busyState (by decide)⟩

/-- C7 (amended): for a fixed peak-usage flag the estimator is
monotonically non-decreasing in elapsed time at constant phase, and at
most 95 until a terminal step; at terminal steps it is 100 (completed)
and 0 (failed).  The original claim fails only because a session's
peak flag flips at 120 s elapsed, where the percentage may regress
(see the counterexample). -/
theorem C7_amended_estimator_properties :
    (∀ (step : HookStep) (peak : Bool) (t t2 : ℕ), t ≤ t2 →
      getProgressPercentage step t peak ≤ getProgressPercentage step t2 peak)
    ∧ (∀ (step : HookStep) (peak : Bool) (t : ℕ),
        step ≠ HookStep.completed → step ≠ HookStep.failed →
        getProgressPercentage step t peak ≤ 95)
    ∧ (∀ (t : ℕ) (peak : Bool),
        getProgressPercentage HookStep.completed t peak = 100
        ∧ getProgressPercentage HookStep.failed t peak = 0) := by
  have hM : ∀ peak : Bool, (0:ℚ) < (if peak then 480 else 240) := by
    intro peak; cases peak <;> norm_num
  have htp : ∀ (peak : Bool) (t t2 : ℕ), t ≤ t2 →
      min ((t : ℚ) / (if peak then 480 else 240) * 100) 95 ≤
        min ((t2 : ℚ) / (if peak then 480 else 240) * 100) 95 := by
    intro peak t t2 h
    have h1 : (t : ℚ) ≤ (t2 : ℚ) := by exact_mod_cast h
    have h2 : (t : ℚ) / (if peak then 480 else 240) ≤
        (t2 : ℚ) / (if peak then 480 else 240) :=
      div_le_div_of_nonneg_right h1 (hM peak).le
    exact min_le_min (by linarith) le_rfl
  have htp95 : ∀ (peak : Bool) (t : ℕ),
      min ((t : ℚ) / (if peak then 480 else 240) * 100) 95 ≤ 95 :=
    fun peak t => min_le_right _ _
  refine ⟨?_, ?_, ?_⟩
  · intro step peak t t2 h
    cases step <;>
      simp only [getProgressPercentage, reduceCtorEq, if_false, if_true,
        reduceIte]
    · exact max_le_max le_rfl
        (mul_le_mul_of_nonneg_right (htp peak t t2 h) (by norm_num))
    · exact max_le_max le_rfl
        (mul_le_mul_of_nonneg_right (htp peak t t2 h) (by norm_num))
    · exact max_le_max le_rfl (htp peak t t2 h)
    · exact le_rfl
    · exact le_rfl
  · intro step peak t h1 h2
    cases step
    · simp only [getProgressPercentage, reduceCtorEq, if_false, reduceIte]
      refine max_le (by norm_num) ?_
      calc min ((t : ℚ) / (if peak then 480 else 240) * 100) 95 * (2/10)
          ≤ 95 * (2/10) :=
            mul_le_mul_of_nonneg_right (htp95 peak t) (by norm_num)
        _ ≤ 95 := by norm_num
    · simp only [getProgressPercentage, reduceCtorEq, if_false, reduceIte]
      refine max_le (by norm_num) ?_
      calc min ((t : ℚ) / (if peak then 480 else 240) * 100) 95 * (8/10)
          ≤ 95 * (8/10) :=
            mul_le_mul_of_nonneg_right (htp95 peak t) (by norm_num)
        _ ≤ 95 := by norm_num
    · simp only [getProgressPercentage, reduceCtorEq, if_false, reduceIte]
      exact max_le (by norm_num) (htp95 peak t)
    · exact absurd rfl h1
    · exact absurd rfl h2
  · intro t peak
    exact ⟨rfl, rfl⟩

/-- C7 witness: monotone step, the 95 bound and the terminal values at
concrete inputs. -/
theorem C7_amended_estimator_properties_witness :
    getProgressPercentage HookStep.processing 60 false ≤
      getProgressPercentage HookStep.processing 90 false
    ∧ getProgressPercentage HookStep.processing 90 false ≤ 95
    ∧ getProgressPercentage HookStep.completed 5 false = 100
    ∧ getProgressPercentage HookStep.failed 5 false = 0 :=
  ⟨C7_amended_estimator_properties.1 HookStep.processing false 60 90
      (by norm_num),
   C7_amended_estimator_properties.2.1 HookStep.processing false 90
      (by decide) (by decide),
   (C7_amended_estimator_properties.2.2 5 false).1,
   (C7_amended_estimator_properties.2.2 5 false).2⟩

/-- C9 (amended): while a session is in flight the flag recomputed by
each tick equals (elapsed > 120 s), so with the session's clock it
never flips back from true to false as time advances; but the terminal
transitions overwrite it — the failure handler resets it to false
unconditionally, and the completion handler derives it from the
reported total time (false when that is absent). -/
theorem C9_amended_peak_flag_semantics :
    (∀ (s : HookState) (startMs n1 n2 : ℕ), n1 ≤ n2 →
      (updateProgress n1 startMs s).isPeakUsage = true →
      (updateProgress n2 startMs s).isPeakUsage = true)
    ∧ (∀ (s : HookState) (msg : String),
        (failTransition s msg).isPeakUsage = false)
    ∧ (∀ (s : HookState) (r : VideoGenerationResult), r.total_time = none →
        (completeTransition s r).isPeakUsage = false) := by
  refine ⟨?_, fun s msg => rfl, ?_⟩
  · intro s startMs n1 n2 h12 h1
    by_cases hg : s.isGenerating = false
    · simpa [updateProgress, hg] using h1
    · have hg2 : s.isGenerating = true := by
        revert hg; cases s.isGenerating <;> simp
      simp only [updateProgress, hg2, Bool.true_eq_false, if_false] at h1 ⊢
      simp only [decide_eq_true_eq] at h1 ⊢
      calc 120 < (n1 - startMs) / 1000 := h1
        _ ≤ (n2 - startMs) / 1000 :=
          Nat.div_le_div_right (Nat.sub_le_sub_right h12 startMs)
  · intro s r h
    simp [completeTransition, h]

/-- C9 witness: a tick at 125 s keeps the flag true at a later tick at
130 s; the terminal transitions at concrete states produce false. -/
theorem C9_amended_peak_flag_semantics_witness :
    (updateProgress 130000 0 busyState).isPeakUsage = true
    ∧ (failTransition busyState "x").isPeakUsage = false
    ∧ (completeTransition busyState { success := true }).isPeakUsage = false :=
  ⟨C9_amended_peak_flag_semantics.1 busyState 0 125000 130000 (by decide)
      (by decide),
   C9_amended_peak_flag_semantics.2.1 busyState "x",
   C9_amended_peak_flag_semantics.2.2 busyState { success := true } rfl⟩

/-- C1 (amended): a poll whose response says completed without a
truthy hosted_url or download_url is not treated as terminal and no
MissingResultError exists: whenever the total timeout has not fired,
such an iteration continues the loop (for any such response), so the
operation keeps polling; it can only fail later through the
time/attempt bounds or succeed on a later poll. -/
theorem C1_amended_completed_without_url_keeps_polling :
    ∀ (resp : ℕ → Except String TavusRawResponse) (netTime : ℕ → ℚ)
      (videoId : String) (s : PollState) (raw : TavusRawResponse),
      ¬ POLLING_CONFIG.totalTimeout < s.now →
      resp s.attempts = Except.ok raw →
      raw.status = TavusStatus.completed →
      strTruthy raw.hosted_url = false →
      strTruthy raw.download_url = false →
      (pollStep resp netTime videoId s).isRight = true := by
  intro resp netTime videoId s raw ht hresp hst hh hd
  simp only [pollStep, if_neg ht, hresp, getVideoStatus, hst]
  simp only [jsOrS, hh, Bool.false_eq_true, if_false, hd]
  rw [if_neg (by simp [hd])]
  rw [if_neg (by decide : ¬ (TavusStatus.completed = TavusStatus.failed ∨
    TavusStatus.completed = TavusStatus.error))]
  split <;> rfl

/-- C1 witness: the completed-no-URL response `rawNoUrl` at the initial
poll state continues the loop. -/
theorem C1_amended_completed_without_url_keeps_polling_witness :
    (pollStep respC1 netZero "v1" initialPollState).isRight = true :=
  C1_amended_completed_without_url_keeps_polling respC1 netZero "v1"
    initialPollState rawNoUrl (by decide) rfl rfl rfl rfl

/-- C3 (amended): both bounds are enforced.  The wall-clock ceiling is
checked at the top of every iteration, before the provider response is
even consulted, and its failure carries both the elapsed seconds and
the attempt count; the attempt ceiling, hit without the timeout
firing, fails with the analogous error carrying the attempt count and
a suggestion but NOT the elapsed time (total_time is absent there, see
the counterexample). -/
theorem C3_amended_two_bounds :
    (∀ (resp : ℕ → Except String TavusRawResponse) (netTime : ℕ → ℚ)
        (videoId : String) (s : PollState),
      POLLING_CONFIG.totalTimeout < s.now →
      pollStep resp netTime videoId s =
        Sum.inl (timeoutResult videoId s.now s.attempts))
    ∧ (∀ (videoId : String) (now : ℚ) (attempts : ℕ),
        (timeoutResult videoId now attempts).success = false
        ∧ (timeoutResult videoId now attempts).total_time =
            some (jsRound (now / 1000))
        ∧ (timeoutResult videoId now attempts).attempts_made = some attempts)
    ∧ (∀ (resp : ℕ → Except String TavusRawResponse) (netTime : ℕ → ℚ)
        (videoId : String) (fuel : ℕ) (s : PollState),
        POLLING_CONFIG.maxAttempts ≤ s.attempts →
        (pollGo resp netTime videoId (fuel + 1) s).1 =
          maxAttemptsResult videoId s.attempts)
    ∧ (∀ (videoId : String) (attempts : ℕ),
        (maxAttemptsResult videoId attempts).success = false
        ∧ (maxAttemptsResult videoId attempts).total_time = none
        ∧ (maxAttemptsResult videoId attempts).attempts_made =
            some attempts) := by
  refine ⟨?_, fun videoId now attempts => ⟨rfl, rfl, rfl⟩, ?_,
    fun videoId attempts => ⟨rfl, rfl, rfl⟩⟩
  · intro resp netTime videoId s h
    simp [pollStep, h]
  · intro resp netTime videoId fuel s h
    simp [pollGo, Nat.not_lt.mpr h]

/-- C3 witness: the timeout branch at a state past the ceiling, and
the loop exit at the attempt ceiling, at concrete states. -/
theorem C3_amended_two_bounds_witness :
    (pollStep respC3 netZero "v1"
      { attempts := 12, currentInterval := 5000, queuePhase := true
        now := 600001, sleeps := [] }).isLeft = true
    ∧ (timeoutResult "v1" 600001 12).attempts_made = some 12
    ∧ (pollGo respC3 netZero "v1" 1
        { attempts := 60, currentInterval := 5000, queuePhase := true
          now := 295000, sleeps := [] }).1 = maxAttemptsResult "v1" 60 :=
  ⟨by
    rw [C3_amended_two_bounds.1 respC3 netZero "v1"
      { attempts := 12, currentInterval := 5000, queuePhase := true
        now := 600001, sleeps := [] }
      (by with_unfolding_all exact of_decide_eq_true rfl)]
    rfl,
   (C3_amended_two_bounds.2.1 "v1" 600001 12).2.2,
   C3_amended_two_bounds.2.2.1 respC3 netZero "v1" 0
      { attempts := 60, currentInterval := 5000, queuePhase := true
        now := 295000, sleeps := [] } (by decide)⟩

/-- C8 (amended): the base backoff interval is non-decreasing and
capped at maxInterval (20 s); the interval actually used equals the
base interval in the processing phase and min(base × 1.5, 30 s) in the
queued phase, which dominates the processing interval for the same
base but may exceed maxInterval (up to 30 s), and the used interval
may drop when the phase flips from queued to processing (see the
counterexample); within a constant phase the used interval is
non-decreasing. -/
theorem C8_amended_backoff_properties :
    ∀ (c : ℚ) (b : Bool), 5000 ≤ c → c ≤ POLLING_CONFIG.maxInterval →
      (c ≤ nextInterval c
      ∧ 5000 ≤ nextInterval c
      ∧ nextInterval c ≤ POLLING_CONFIG.maxInterval
      ∧ usedInterval false c = c
      ∧ usedInterval false c ≤ usedInterval true c
      ∧ usedInterval true c ≤ 30000
      ∧ usedInterval b c ≤ usedInterval b (nextInterval c)) := by
  intro c b h5 h20
  have hmax : POLLING_CONFIG.maxInterval = 20000 := by norm_num [POLLING_CONFIG]
  rw [hmax] at h20 ⊢
  have hmul : POLLING_CONFIG.backoffMultiplier = 13/10 := by
    norm_num [POLLING_CONFIG]
  have hc0 : (0:ℚ) ≤ c := by linarith
  have hcc : c ≤ c * (13/10) := by nlinarith
  have hnext : nextInterval c = min (c * (13/10)) 20000 := by
    rw [nextInterval, hmul, hmax]
  have h1 : c ≤ nextInterval c := by
    rw [hnext]; exact le_min hcc h20
  have h2 : 5000 ≤ nextInterval c := by
    rw [hnext]; exact le_min (by linarith) (by norm_num)
  have h3 : nextInterval c ≤ 20000 := by
    rw [hnext]; exact min_le_right _ _
  have h4 : usedInterval false c = c := rfl
  have h5q : c ≤ c * (3/2) := by nlinarith
  have h6 : usedInterval false c ≤ usedInterval true c := by
    simp only [usedInterval, if_true, if_false, Bool.false_eq_true, reduceIte]
    exact le_min h5q (by linarith)
  have h7 : usedInterval true c ≤ 30000 := by
    simp only [usedInterval, reduceIte]
    exact min_le_right _ _
  refine ⟨h1, h2, h3, h4, h6, h7, ?_⟩
  cases b
  · simpa [usedInterval] using h1
  · simp only [usedInterval, reduceIte]
    exact min_le_min (mul_le_mul_of_nonneg_right h1 (by norm_num)) le_rfl

/-- C8 witness: the amended properties at the initial interval in the
queued phase. -/
theorem C8_amended_backoff_properties_witness :
    ((5000:ℚ) ≤ nextInterval 5000
    ∧ 5000 ≤ nextInterval 5000
    ∧ nextInterval 5000 ≤ POLLING_CONFIG.maxInterval
    ∧ usedInterval false 5000 = 5000
    ∧ usedInterval false 5000 ≤ usedInterval true 5000
    ∧ usedInterval true 5000 ≤ 30000
    ∧ usedInterval true 5000 ≤ usedInterval true (nextInterval 5000)) :=
  C8_amended_backoff_properties 5000 true (by norm_num)
    (by norm_num [POLLING_CONFIG])

/-- After the owner-wide failure update, no row of that owner is left
pending or processing (helper shared by the orchestrator theorems). -/
theorem mem_applyOp_failPending {store : List JobRecord} {u m : String}
    {r : JobRecord}
    (hr : r ∈ applyOp store (StoreOp.failPendingProcessing u m))
    (hu : r.user_id = u) :
    r.status ≠ RecStatus.pending ∧ r.status ≠ RecStatus.processing := by
  simp only [applyOp, List.mem_map] at hr
  obtain ⟨r0, hr0, heq⟩ := hr
  by_cases hc : matchesFailFilter u r0 = true
  · rw [if_pos hc] at heq
    subst heq
    constructor <;> simp
  · rw [if_neg hc] at heq
    subst heq
    simp only [matchesFailFilter, decide_eq_true_eq, not_and, not_or] at hc
    exact ⟨fun hst => (hc hu).1 hst, fun hst => (hc hu).2 hst⟩

/-- C4 (amended): when the orchestrator observes a failure after it
created the record, the catch-path update marks failed every
pending/processing record of this owner — regardless of subject and
not only the most recent one (see the counterexample) — so in
particular no record of this owner, the created one included, is left
at pending or processing. -/
theorem C4_amended_failure_terminalizes_owner_records :
    ∀ (env : GenEnv) (uid activityId script : String)
      (cust : Customization) (newId nowMs : ℕ) (insertErr : Option String)
      (submit : SubmitHttp) (resp : ℕ → Except String TavusRawResponse)
      (netTime : ℕ → ℚ) (store : List JobRecord) (rid : ℕ),
      (generateActivityVideo env (some uid) activityId script cust newId nowMs
        insertErr submit resp netTime).createdId = some rid →
      (generateActivityVideo env (some uid) activityId script cust newId nowMs
        insertErr submit resp netTime).result.success = false →
      ∀ r ∈ applyOps store
        (generateActivityVideo env (some uid) activityId script cust newId
          nowMs insertErr submit resp netTime).ops,
        r.user_id = uid →
        r.status ≠ RecStatus.pending ∧ r.status ≠ RecStatus.processing := by
  intro env uid activityId script cust newId nowMs insertErr submit resp
    netTime store rid hc hs r hr hu
  by_cases hk : apiKeyMissing env = true
  · simp [generateActivityVideo, hk] at hc
  · cases insertErr with
    | some m => simp [generateActivityVideo, hk] at hc
    | none =>
      cases hsub : (initiateVideoGeneration env activityId script nowMs
          submit).2 with
      | error e =>
        simp only [generateActivityVideo, hk, Bool.false_eq_true, if_false,
          hsub, applyOps, List.foldl] at hr
        exact mem_applyOp_failPending hr hu
      | ok vid =>
        by_cases hpr : ((pollVideoCompletionEnhanced resp netTime vid).1.success
            && strTruthy (pollVideoCompletionEnhanced resp netTime
              vid).1.videoUrl) = true
        · simp [generateActivityVideo, hk, hsub, hpr] at hs
        · simp only [generateActivityVideo, hk, Bool.false_eq_true, if_false,
            hsub, hpr, applyOps, List.foldl] at hr
          exact mem_applyOp_failPending hr hu

/-- C4 witness: in the failing run `runC4` over `storeC4`, the row the
update left behind for owner u1 is terminal. -/
theorem C4_amended_failure_terminalizes_owner_records_witness :
    recC4final.status ≠ RecStatus.pending
    ∧ recC4final.status ≠ RecStatus.processing :=
  C4_amended_failure_terminalizes_owner_records envOk "u1" "run-1" "script"
    {} 7 1000 none (SubmitHttp.httpError 500 "Internal Server Error" "boom")
    (fun _ => Except.ok rawQueued) netZero storeC4 7 (by decide) (by decide)
    _ (by decide) rfl

/-- C5 (amended): for every run that creates a record, the sequence of
status values written to that record is one of pending → failed
(submission failed, processing skipped — see the counterexample),
pending → processing → completed, or pending → processing → failed:
the order is never reshuffled and completed is never written directly
after pending, but the processing step is skipped on early failure. -/
theorem C5_amended_trace_shapes :
    ∀ (env : GenEnv) (auth : Option String) (activityId script : String)
      (cust : Customization) (newId nowMs : ℕ) (insertErr : Option String)
      (submit : SubmitHttp) (resp : ℕ → Except String TavusRawResponse)
      (netTime : ℕ → ℚ) (store : List JobRecord) (rid : ℕ),
      (generateActivityVideo env auth activityId script cust newId nowMs
        insertErr submit resp netTime).createdId = some rid →
      statusTrace store rid
        (generateActivityVideo env auth activityId script cust newId nowMs
          insertErr submit resp netTime).ops ∈
        [[RecStatus.pending, RecStatus.failed],
         [RecStatus.pending, RecStatus.processing, RecStatus.completed],
         [RecStatus.pending, RecStatus.processing, RecStatus.failed]] := by
  intro env auth activityId script cust newId nowMs insertErr submit resp
    netTime store rid hc
  by_cases hk : apiKeyMissing env = true
  · simp [generateActivityVideo, hk] at hc
  · cases auth with
    | none => simp [generateActivityVideo, hk] at hc
    | some uid =>
      cases insertErr with
      | some m => simp [generateActivityVideo, hk] at hc
      | none =>
        cases hsub : (initiateVideoGeneration env activityId script nowMs
            submit).2 with
        | error e =>
          have hid : newId = rid := by
            simpa [generateActivityVideo, hk, hsub] using hc
          subst hid
          simp [generateActivityVideo, hk, hsub, statusTrace, opWrites,
            applyOp, matchesFailFilter, List.any_append]
        | ok vid =>
          by_cases hpr : ((pollVideoCompletionEnhanced resp netTime
              vid).1.success && strTruthy (pollVideoCompletionEnhanced resp
              netTime vid).1.videoUrl) = true
          · have hid : newId = rid := by
              simpa [generateActivityVideo, hk, hsub, hpr] using hc
            subst hid
            simp [generateActivityVideo, hk, hsub, hpr, statusTrace,
              opWrites, applyOp, matchesFailFilter, List.any_append,
              List.any_map]
          · have hid : newId = rid := by
              simpa [generateActivityVideo, hk, hsub, hpr] using hc
            subst hid
            simp [generateActivityVideo, hk, hsub, hpr, statusTrace,
              opWrites, applyOp, matchesFailFilter, List.any_append,
              List.any_map]

/-- C5 witness: the trace of the concrete failing run `runC5`. -/
theorem C5_amended_trace_shapes_witness :
    statusTrace [] 8 runC5.ops ∈
      [[RecStatus.pending, RecStatus.failed],
       [RecStatus.pending, RecStatus.processing, RecStatus.completed],
       [RecStatus.pending, RecStatus.processing, RecStatus.failed]] :=
  C5_amended_trace_shapes envOk (some "u2") "run-2" "script2" {} 8 0 none
    (SubmitHttp.netError "connection reset") (fun _ => Except.ok rawQueued)
    netZero [] 8 (by decide)

end RunReel
